import Mathlib

/-!
Verification development for the Steam profile parser
(src/secondproject.py). The Python source is shallowly embedded below:
pure computations become Lean functions; calls into the network (requests),
the regex engine and json.loads are represented either concretely (the two
fixed regex patterns are implemented as explicit scans) or as explicit
oracle parameters (page fetches, JSON decoding); Python exceptions become
Except values; Python numbers become Int / Rat.
-/

deriving instance DecidableEq for Except

namespace SteamParser

/-! ## Python value helpers -/

/-- Playtime as it sits in a game dict: either a string (scrape source,
field built from hours_forever) or a number (API source, playtime_forever
in minutes). Mirrors the isinstance(playtime, str) branching in the source. -/
inductive PlayVal where
  | str : String → PlayVal
  | num : Int → PlayVal
deriving DecidableEq, Repr

/-- Numeric value of a run of decimal digit characters. -/
def digitsVal (cs : List Char) : Nat :=
  cs.foldl (fun a c => a * 10 + (c.toNat - 48)) 0

/-- True when every character is a decimal digit. -/
def allDigits (cs : List Char) : Bool :=
  cs.all (fun c => c.isDigit)

/-- Split a character list on a separator (like Python str.split for a
one-character separator); always returns at least one piece. -/
def splitOnChar (sep : Char) : List Char → List (List Char)
  | [] => [[]]
  | c :: cs =>
    if c = sep then [] :: splitOnChar sep cs
    else
      match splitOnChar sep cs with
      | [] => [[c]]
      | p :: ps => (c :: p) :: ps

/-- Split on the dot character (like "12.5".split(".")). -/
def splitDot (cs : List Char) : List (List Char) :=
  splitOnChar '.' cs

/-- Unsigned decimal part of Python float parsing: digits with at most
one dot, at least one digit overall. The result (m, d) stands for the
value m / 10 ^ d; it is kept in Int × Nat so that concrete instances
reduce inside the kernel. -/
def pyFloatCore (cs : List Char) : Option (Int × Nat) :=
  match splitDot cs with
  | [a] =>
    if a ≠ [] ∧ allDigits a then some ((digitsVal a : Int), 0) else none
  | [a, b] =>
    if (a ≠ [] ∨ b ≠ []) ∧ allDigits a ∧ allDigits b then
      some ((digitsVal a * 10 ^ b.length + digitsVal b : Int), b.length)
    else none
  | _ => none

/-- Signed decimal parse of a Python float literal, as mantissa and
power-of-ten denominator. -/
def pyFloatDec (s : String) : Option (Int × Nat) :=
  match s.data with
  | [] => none
  | c :: rest =>
    if c = '-' then (pyFloatCore rest).map (fun p => (-p.1, p.2))
    else if c = '+' then pyFloatCore rest
    else pyFloatCore (c :: rest)

/-- Model of Python float(s) on the plain decimal strings this program
feeds it (optional sign, digits, at most one dot; exponent and inf/nan
forms never occur in the scraped data and are out of the modelled domain).
Returns none where Python float() raises ValueError. -/
def pyFloat (s : String) : Option ℚ :=
  (pyFloatDec s).map (fun p => (p.1 : ℚ) / 10 ^ p.2)

/-- The playtime normalization applied identically in create_excel,
render_overview_page, render_libraries_page and render_games_page:
a string is float-parsed and multiplied by 60 (0 when parsing fails);
a number is taken as minutes unchanged. -/
def normPlaytime : PlayVal → ℚ
  | .num k => (k : ℚ)
  | .str s =>
    match pyFloat s with
    | some q => q * 60
    | none => 0

/-- Model of s.replace(",", "") — drops every comma. -/
def removeCommas (s : String) : String :=
  String.mk (s.data.filter (fun c => c ≠ ','))

/-- Model of Python round(q, 1) used for the hours columns and the CS2
leaderboard key. Implemented as round-half-up on exact rationals; the
program only ever rounds nonnegative playtime values, where this agrees
with Python except on exact .x5 ties (which binary floats almost never
produce and which no claim evaluates). -/
def pyRound1 (q : ℚ) : ℚ :=
  ((⌊q * 10 + 1 / 2⌋ : ℤ) : ℚ) / 10

/-- Model of Python int(q): truncation toward zero. -/
def pyTrunc (q : ℚ) : ℤ :=
  if q < 0 then -⌊-q⌋ else ⌊q⌋

/-! ## String scanning (the two regex patterns of the source) -/

/-- pat is a prefix of cs. -/
def hasPrefixL : List Char → List Char → Bool
  | [], _ => true
  | _ :: _, [] => false
  | p :: ps, c :: cs => p = c && hasPrefixL ps cs

/-- pat occurs as a contiguous substring of cs (Python's in operator). -/
def containsSubL (pat : List Char) : List Char → Bool
  | [] => hasPrefixL pat []
  | c :: cs => hasPrefixL pat (c :: cs) || containsSubL pat cs

/-- Python "pat in s" on strings. -/
def containsSub (s pat : String) : Bool :=
  containsSubL pat.data s.data

/-- Longest leading run of decimal digits, with the rest. -/
def digitsSpan : List Char → List Char × List Char
  | [] => ([], [])
  | c :: cs =>
    if c.isDigit then
      let p := digitsSpan cs
      (c :: p.1, p.2)
    else ([], c :: cs)

/-- The literal lead-in of the steamid regex in extract_steamid. -/
def steamidLead : List Char := "\"steamid\":\"".data

/-- Scan for the regex "steamid":"(\d+)" — the literal lead-in followed
by at least one digit and a closing double quote; returns the captured
digit group of the leftmost match. -/
def findSteamidAux : List Char → Option String
  | [] => none
  | c :: cs =>
    if hasPrefixL steamidLead (c :: cs) then
      let rest := (c :: cs).drop steamidLead.length
      let p := digitsSpan rest
      if p.1 ≠ [] ∧ p.2.head? = some '"' then some (String.mk p.1)
      else findSteamidAux cs
    else findSteamidAux cs

def findSteamidPat (s : String) : Option String :=
  findSteamidAux s.data

/-- The literal lead-in of the games regex in get_games_from_html,
including the opening bracket of the capture group. -/
def rgGamesLead : List Char := "var rgGames = [".data

/-- Characters before the first occurrence of "];", if any. -/
def upToClose : List Char → Option (List Char)
  | [] => none
  | c :: cs =>
    if hasPrefixL ("];".data) (c :: cs) then some []
    else (upToClose cs).map (fun t => c :: t)

/-- Scan for the regex var rgGames = (\[.+?\]); with DOTALL: the literal
lead-in, then a shortest nonempty body up to the closing "];"; the
captured group is the bracketed JSON array text. -/
def findRgGamesAux : List Char → Option String
  | [] => none
  | c :: cs =>
    if hasPrefixL rgGamesLead (c :: cs) then
      match upToClose ((c :: cs).drop rgGamesLead.length) with
      | some mid =>
        if mid ≠ [] then some ("[" ++ String.mk mid ++ "]")
        else findRgGamesAux cs
      | none => findRgGamesAux cs
    else findRgGamesAux cs

def findRgGames (s : String) : Option String :=
  findRgGamesAux s.data

/-! ## Data model: games and scrape adapter -/

/-- One entry of the JSON array embedded in the games page, as handed
back by json.loads — only the keys the source reads. g.get(k) yields
none when the key is absent; hours_forever with default "0". -/
structure RawGame where
  appid : Option Int := none
  name : Option String := none
  hours_forever : Option String := none
  logo : Option String := none
deriving DecidableEq, Repr

/-- A game dict as built by get_games (API: playtime in minutes, a
number) or get_games_from_html (scrape: playtime a comma-stripped string
of hours). -/
structure Game where
  appid : Option Int := none
  name : Option String := none
  playtime : PlayVal := .num 0
  logo : Option String := none
deriving DecidableEq, Repr

/-- The per-entry mapping inside get_games_from_html:
{"appid": g.get("appid"), "name": g.get("name"),
 "playtime": g.get("hours_forever", "0").replace(",", ""),
 "logo": g.get("logo")}. -/
def mkScrapeGame (g : RawGame) : Game :=
  { appid := g.appid
    name := g.name
    playtime := .str (removeCommas (g.hours_forever.getD "0"))
    logo := g.logo }

/-- get_games_from_html. The page fetch and json.loads are oracle
parameters: fetch is the outcome of requests.get on the games URL
(.error for a raised transport exception), parseJson models json.loads
(none where it raises). Every exception path is swallowed by the bare
except of the source and yields []. -/
def get_games_from_html (fetch : Except String String)
    (parseJson : String → Option (List RawGame)) : List Game :=
  match fetch with
  | .error _ => []
  | .ok text =>
    match findRgGames text with
    | none => []
    | some jsonStr =>
      match parseJson jsonStr with
      | none => []
      | some data => data.map mkScrapeGame

/-! ## Identity resolver -/

/-- url.rstrip("/") for the single character the source strips. -/
def rstripSlash (s : String) : String :=
  String.mk (s.data.reverse.dropWhile (fun c => c = '/')).reverse

/-- Last component of url.rstrip("/").split("/"), i.e. [-1] of a split
that is never empty. -/
def lastSegment (s : String) : String :=
  String.mk ((splitOnChar '/' (rstripSlash s).data).getLastD [])

/-- extract_steamid. fetch is the oracle for requests.get on the profile
URL. A URL containing "/profiles/" yields its last path segment with no
network call; otherwise the page is fetched and the steamid regex
applied; any failure is caught and re-raised as
ValueError("Ошибка: {e}"), modelled as the wrapped message. -/
def extract_steamid (fetch : String → Except String String)
    (profile_url : String) : Except String String :=
  if containsSub profile_url "/profiles/" then
    .ok (lastSegment profile_url)
  else
    match fetch profile_url with
    | .error e => .error ("Ошибка: " ++ e)
    | .ok text =>
      match findSteamidPat text with
      | some sid => .ok sid
      | none => .error "Ошибка: Не удалось извлечь SteamID"

/-! ## HTTP wrapper with retry (api_request_with_retry) -/

/-- Outcome of one requests.get inside the retry loop: an HTTP status
with a (JSON-decoded) body, a transport timeout, or any other raised
exception. The body stands for r.json() of a decodable response. -/
inductive HttpOutcome where
  | status : Nat → String → HttpOutcome
  | timeout : HttpOutcome
  | exc : String → HttpOutcome
deriving DecidableEq, Repr

def maxRetriesMsg : String := "Превышено максимальное количество попыток"

/-- The body of the for attempt in range(max_retries) loop, with fuel
the number of attempts left and attempt the 0-based counter. The second
component records the sleeps performed, in seconds, in order. A timeout
or generic exception on the last attempt re-raises. -/
def retryFrom (resp : Nat → HttpOutcome) : Nat → Nat → Except String String × List Nat
  | 0, _ => (.error maxRetriesMsg, [])
  | fuel + 1, attempt =>
    match resp attempt with
    | .status code body =>
      if code = 429 then
        let r := retryFrom resp fuel (attempt + 1)
        (r.1, 30 * (attempt + 1) :: r.2)
      else if code ≠ 200 then
        let r := retryFrom resp fuel (attempt + 1)
        (r.1, 5 :: r.2)
      else (.ok body, [])
    | .timeout =>
      if fuel = 0 then (.error "Timeout", [])
      else
        let r := retryFrom resp fuel (attempt + 1)
        (r.1, 5 :: r.2)
    | .exc e =>
      if fuel = 0 then (.error e, [])
      else
        let r := retryFrom resp fuel (attempt + 1)
        (r.1, 5 :: r.2)

/-- api_request_with_retry with its default max_retries=3, over the
sequence of per-attempt outcomes. -/
def api_request_with_retry (resp : Nat → HttpOutcome) :
    Except String String × List Nat :=
  retryFrom resp 3 0

/-! ## Records and the profile collector -/

/-- One friend entry from GetFriendList. -/
structure Friend where
  steamid : String := ""
  friend_since : Int := 0
deriving DecidableEq, Repr

/-- One group link scraped from the profile page. -/
structure SteamGroup where
  name : String := ""
  url : Option String := none
deriving DecidableEq, Repr

/-- One entry of get_recent_playtime's recent_games. -/
structure RecentGame where
  name : Option String := none
  playtime_2weeks : Int := 0
  playtime_total : Int := 0
deriving DecidableEq, Repr

/-- The dict returned by get_recent_playtime (which swallows its own
errors and degrades to zeros). -/
structure RecentData where
  total_2weeks_minutes : Int := 0
  total_2weeks_hours : ℚ := 0
  recent_games : List RecentGame := []
deriving DecidableEq, Repr

/-- The dict returned by get_profile_summary for an existing account;
every field comes from p.get(...) and may be absent. -/
structure Summary where
  nickname : Option String := none
  avatar : Option String := none
  country : Option String := none
  profile_state : Option Int := none
  last_logoff : Option Int := none
  timecreated : Option Int := none
deriving DecidableEq, Repr

/-- A profile result dict. The error field models the presence of the
"error" key: none means the key is absent (a success record). All other
optional fields default to the values an error dict lacks. -/
structure Record where
  steamid : String := ""
  error : Option String := none
  profile_url : Option String := none
  nickname : Option String := none
  avatar : Option String := none
  country : Option String := none
  level : Option Int := none
  games : List Game := []
  friends : List Friend := []
  groups : List SteamGroup := []
  last_logoff : Option Int := none
  timecreated : Option Int := none
  recent_playtime : ℚ := 0
  recent_games : List RecentGame := []
deriving DecidableEq, Repr

/-- Tags for the network adapters collect_profile can call after the
identifier is resolved. -/
inductive Adapter where
  | summary
  | scrapeGames
  | apiGames
  | recent
  | level
  | friends
  | groups
deriving DecidableEq, Repr

/-- The network world seen by collect_profile: one oracle per adapter.
extract covers extract_steamid (resolution), summary the
GetPlayerSummaries call (.ok none when the platform reports no player),
scrapeGames the games-page scrape (swallows its own errors), apiGames
GetOwnedGames (its api_request_with_retry failure propagates), recent
the recently-played fetch (swallows errors), level GetSteamLevel
(propagates), friends and groups (both swallow errors). -/
structure Env where
  extract : String → Except String String
  summary : String → Except String (Option Summary)
  scrapeGames : String → List Game
  apiGames : String → Except String (List Game)
  recent : String → RecentData
  level : String → Except String (Option Int)
  friends : String → List Friend
  groups : String → List SteamGroup

/-- collect_profile over an Env, returning the collection outcome
(an unhandled exception propagates as .error) together with the list of
adapters invoked, in call order. Mirrors: resolve; summary; the privacy
gate returning {steamid, error: PROFILE_PRIVATE}; scrape games with API
fallback only when the scrape list is empty; recent playtime; then the
success dict whose values call level, friends and groups in key order. -/
def collect_profile (env : Env) (profile_url : String) :
    Except String Record × List Adapter :=
  match env.extract profile_url with
  | .error e => (.error e, [])
  | .ok steamid =>
    match env.summary steamid with
    | .error e => (.error e, [.summary])
    | .ok none => (.ok { steamid := steamid, error := some "PROFILE_PRIVATE" }, [.summary])
    | .ok (some s) =>
      if s.profile_state = some 3 then
        let sg := env.scrapeGames profile_url
        let invoked := [Adapter.summary, Adapter.scrapeGames]
          ++ (if sg.isEmpty then [Adapter.apiGames] else [])
        let gamesRes : Except String (List Game) :=
          if sg.isEmpty then env.apiGames steamid else .ok sg
        match gamesRes with
        | .error e => (.error e, invoked)
        | .ok games =>
          let rd := env.recent steamid
          match env.level steamid with
          | .error e => (.error e, invoked ++ [Adapter.recent, Adapter.level])
          | .ok lvl =>
            (.ok { steamid := steamid
                   profile_url := some profile_url
                   nickname := s.nickname
                   avatar := s.avatar
                   country := s.country
                   level := lvl
                   games := games
                   friends := env.friends steamid
                   groups := env.groups profile_url
                   last_logoff := s.last_logoff
                   timecreated := s.timecreated
                   recent_playtime := rd.total_2weeks_hours
                   recent_games := rd.recent_games },
             invoked ++ [Adapter.recent, Adapter.level, Adapter.friends, Adapter.groups])
      else (.ok { steamid := steamid, error := some "PROFILE_PRIVATE" }, [.summary])

/-! ## Batch runner (the parsing loop of render_parser_page) -/

/-- The record appended for one input URL: the collected record, or —
when collection raised — the except-branch dict
{"steamid": url, "error": str(e)} holding the raw input URL. -/
def stepOne (collectO : String → Except String Record) (url : String) : Record :=
  match collectO url with
  | .ok r => r
  | .error e => { steamid := url, error := some e }

/-- The results accumulation loop: results = []; for url in profile_urls:
try collect and append, except append the error dict. Progress display
and the inter-profile sleep do not touch the list. -/
def run_batch (collectO : String → Except String Record)
    (profile_urls : List String) : List Record :=
  profile_urls.foldl (fun acc url => acc ++ [stepOne collectO url]) []

/-- The success filter used by every analytics page and by the sidebar:
[r for r in results if "error" not in r]. -/
def successFilter (results : List Record) : List Record :=
  results.filter (fun r => r.error = none)

/-! ## Tabular export (create_excel) -/

/-- One row of the Profiles sheet. Error rows carry the error kind in
the status column and dashes / zero counts elsewhere. -/
structure ProfileRow where
  steamid : String
  status : String
  nickname : Option String
  country : Option String
  level : Option Int
  games_count : Nat
  friends_count : Nat
  groups_count : Nat
  url : String
  recent_hours : ℚ
deriving DecidableEq, Repr

/-- One row of the Games sheet (one per success profile × game). -/
structure GameRow where
  nickname : Option String
  steamid : String
  game_name : Option String
  appid : Option Int
  minutes : Int
  hours : ℚ
deriving DecidableEq, Repr

/-- The profiles_data row built for one record. -/
def profileRow (r : Record) : ProfileRow :=
  match r.error with
  | some e =>
    { steamid := r.steamid, status := e, nickname := some "-",
      country := some "-", level := none, games_count := 0,
      friends_count := 0, groups_count := 0,
      url := r.profile_url.getD "-", recent_hours := 0 }
  | none =>
    { steamid := r.steamid, status := "OK", nickname := r.nickname,
      country := r.country, level := r.level,
      games_count := r.games.length, friends_count := r.friends.length,
      groups_count := r.groups.length, url := r.profile_url.getD "-",
      recent_hours := r.recent_playtime }

/-- The games_data row built for one (success record, game) pair, with
the string-playtime normalization of create_excel applied. -/
def gameRow (r : Record) (g : Game) : GameRow :=
  { nickname := r.nickname, steamid := r.steamid, game_name := g.name,
    appid := g.appid, minutes := pyTrunc (normPlaytime g.playtime),
    hours := pyRound1 (normPlaytime g.playtime / 60) }

/-- The workbook contents: the Profiles dataframe and the Games
dataframe. No other dataframe is ever built. -/
structure Workbook where
  profiles : List ProfileRow
  games : List GameRow
deriving DecidableEq, Repr

/-- create_excel: one Profiles row per result in order; one Games row
per game of each success record. -/
def create_excel (results : List Record) : Workbook :=
  { profiles := results.map profileRow
    games := (successFilter results).flatMap (fun r => r.games.map (gameRow r)) }

/-- The sheets written by the ExcelWriter block: Profiles always, Games
only when df_games is nonempty. -/
def sheetNames (wb : Workbook) : List String :=
  ["Profiles"] ++ (if wb.games.isEmpty then [] else ["Games"])

/-! ## CS2 leaderboard (render_overview_page) -/

def CS2_APPIDS : List Int := [730, 710]

/-- Contribution of one game to a profile's CS2 time: its normalized
playtime when the appid is in CS2_APPIDS (a missing appid, None, is in
no list), else 0. -/
def gameCs2Playtime (g : Game) : ℚ :=
  match g.appid with
  | some a => if a ∈ CS2_APPIDS then normPlaytime g.playtime else 0
  | none => 0

/-- cs2_time accumulated over a profile's games, in minutes. -/
def cs2Time (r : Record) : ℚ :=
  r.games.foldl (fun acc g => acc + gameCs2Playtime g) 0

/-- The cs2_data entry for one profile: nickname and
hours = round(cs2_time / 60, 1). -/
def cs2Entry (r : Record) : Option String × ℚ :=
  (r.nickname, pyRound1 (cs2Time r / 60))

/-- cs2_data before sorting, in input order over success records. -/
def cs2Data (results : List Record) : List (Option String × ℚ) :=
  (successFilter results).map cs2Entry

/-- Insert x into a descending-sorted list, after every element whose
key is not smaller — the stable insertion underlying
list.sort(key=..., reverse=True). -/
def insDesc {α : Type} (key : α → ℚ) (x : α) : List α → List α
  | [] => [x]
  | y :: ys => if key y < key x then x :: y :: ys else y :: insDesc key x ys

/-- Stable descending sort by key, as Python's stable
list.sort(key=..., reverse=True). -/
def pySortDesc {α : Type} (key : α → ℚ) (l : List α) : List α :=
  l.foldl (fun acc x => insDesc key x acc) []

/-- cs2_data.sort(key=lambda x: x['hours'], reverse=True): the CS2
leaderboard rows in display order. -/
def cs2Leaderboard (results : List Record) : List (Option String × ℚ) :=
  pySortDesc Prod.snd (cs2Data results)

/-! ## Per-game aggregate (render_games_page, all_games) -/

/-- The key used for all_games: game.get('name', 'Unknown'). Both game
builders always store a name key (possibly None), so the stored value —
g.name, possibly none — is the key. -/
def gameKey (g : Game) : Option String :=
  g.name

/-- One update of the all_games dict: existing key gets total_time +=
playtime and players += 1, new key is appended with (playtime, 1).
Insertion order is preserved, as for a Python dict. -/
def addGame : List (Option String × ℚ × Nat) → Option String → ℚ →
    List (Option String × ℚ × Nat)
  | [], n, pt => [(n, pt, 1)]
  | (m, t, c) :: rest, n, pt =>
    if m = n then (m, t + pt, c + 1) :: rest
    else (m, t, c) :: addGame rest n pt

/-- Lookup in the all_games association list. -/
def lookupGame : List (Option String × ℚ × Nat) → Option String →
    Option (ℚ × Nat)
  | [], _ => none
  | (m, t, c) :: rest, n => if m = n then some (t, c) else lookupGame rest n

/-- The inner loop step of all_games for one game of one profile. -/
def gameStep (acc : List (Option String × ℚ × Nat)) (g : Game) :
    List (Option String × ℚ × Nat) :=
  addGame acc (gameKey g) (normPlaytime g.playtime)

/-- all_games of render_games_page: for every success profile and every
game, accumulate normalized playtime and a player increment under the
game's name. -/
def allGames (results : List Record) : List (Option String × ℚ × Nat) :=
  (successFilter results).foldl (fun acc r => r.games.foldl gameStep acc) []

/-- Stated from the claim's words, for comparison with the code: the
number of distinct success profiles that own at least one game with the
given name. -/
def specDistinctOwners (results : List Record) (k : Option String) : Nat :=
  (successFilter results).countP (fun r => r.games.any (fun g => gameKey g = k))

/-- Game entries across all success profiles. -/
def allEntries (results : List Record) : List Game :=
  (successFilter results).flatMap (fun r => r.games)

/-- Number of game entries bearing the given name across all success
profiles (what the code's players counter actually counts). -/
def entryCountName (results : List Record) (k : Option String) : Nat :=
  (allEntries results).countP (fun g => gameKey g = k)

/-- Sum of normalized playtimes of the entries bearing the given name. -/
def entrySumName (results : List Record) (k : Option String) : ℚ :=
  (((allEntries results).filter (fun g => gameKey g = k)).map
    (fun g => normPlaytime g.playtime)).sum

/-! ## Helper lemmas -/

theorem run_batch_aux (collectO : String → Except String Record)
    (urls : List String) (acc : List Record) :
    urls.foldl (fun a url => a ++ [stepOne collectO url]) acc
      = acc ++ urls.map (stepOne collectO) := by
  induction urls generalizing acc with
  | nil => simp
  | cons u rest ih =>
    simp only [List.foldl_cons, List.map_cons]
    rw [ih, List.append_assoc]
    simp

theorem run_batch_eq_map (collectO : String → Except String Record)
    (urls : List String) :
    run_batch collectO urls = urls.map (stepOne collectO) := by
  simpa using run_batch_aux collectO urls []

theorem run_batch_get (collectO : String → Except String Record)
    (urls : List String) (i : Nat) (h1 : i < urls.length)
    (h2 : i < (run_batch collectO urls).length) :
    (run_batch collectO urls).get ⟨i, h2⟩
      = stepOne collectO (urls.get ⟨i, h1⟩) := by
  simp only [List.get_eq_getElem, run_batch_eq_map collectO urls,
    List.getElem_map]

/-! ## Claims -/

/-- Claim C1: the batch runner produces exactly one record per input
URL, appended in input order — the result list is pointwise stepOne of
the inputs, hence has the same length, and a collection failure at one
index (stepOne of an .error outcome) leaves every other index's record
unchanged. -/
theorem batch_one_record_per_input
    (collectO : String → Except String Record) (urls : List String) :
    run_batch collectO urls = urls.map (stepOne collectO)
    ∧ (run_batch collectO urls).length = urls.length
    ∧ ∀ (i : Nat) (h1 : i < urls.length)
        (h2 : i < (run_batch collectO urls).length),
        (run_batch collectO urls).get ⟨i, h2⟩
          = stepOne collectO (urls.get ⟨i, h1⟩) := by
  refine ⟨run_batch_eq_map collectO urls, ?_, ?_⟩
  · rw [run_batch_eq_map]; simp
  · intro i h1 h2
    exact run_batch_get collectO urls i h1 h2

/-- A concrete collection oracle: "a" succeeds, anything else raises. -/
def collectW : String → Except String Record :=
  fun u => if u = "a" then .ok { steamid := "1" } else .error "boom"

/-- Witness for C1 at a concrete two-element batch whose second profile
raises: both records are present, in order. -/
theorem batch_one_record_per_input_witness :
    (run_batch collectW ["a", "b"]).length = 2
    ∧ (run_batch collectW ["a", "b"]).get ⟨1, by decide⟩
        = stepOne collectW "b" := by
  refine ⟨?_, ?_⟩
  · exact (batch_one_record_per_input collectW ["a", "b"]).2.1
  · exact (batch_one_record_per_input collectW ["a", "b"]).2.2 1 (by decide) (by decide)

/-- Claim C2: when resolution succeeds and the summary reports no
account or a visibility state other than 3, collect returns the
PROFILE_PRIVATE error dict carrying the resolved identifier, and the
summary adapter is the only adapter invoked (no games, level, friends
or groups call). -/
theorem private_profile_short_circuit
    (env : Env) (url sid : String)
    (hres : env.extract url = .ok sid)
    (hpriv : env.summary sid = .ok none
      ∨ ∃ s, env.summary sid = .ok (some s) ∧ s.profile_state ≠ some 3) :
    collect_profile env url
      = (.ok { steamid := sid, error := some "PROFILE_PRIVATE" }, [.summary])
    ∧ ∀ a ∈ (collect_profile env url).2, a = Adapter.summary := by
  have hmain : collect_profile env url
      = (.ok { steamid := sid, error := some "PROFILE_PRIVATE" }, [.summary]) := by
    rcases hpriv with hnone | ⟨s, hs, hstate⟩
    · simp [collect_profile, hres, hnone]
    · simp [collect_profile, hres, hs, hstate]
  refine ⟨hmain, ?_⟩
  intro a ha
  rw [hmain] at ha
  simpa using ha

/-- A concrete env whose summary reports no account. -/
def envPriv : Env :=
  { extract := fun _ => .ok "76561"
    summary := fun _ => .ok none
    scrapeGames := fun _ => []
    apiGames := fun _ => .ok []
    recent := fun _ => {}
    level := fun _ => .ok none
    friends := fun _ => []
    groups := fun _ => [] }

/-- Witness for C2 at envPriv. -/
theorem private_profile_short_circuit_witness :
    collect_profile envPriv "u"
      = (.ok { steamid := "76561", error := some "PROFILE_PRIVATE" }, [.summary])
    ∧ ∀ a ∈ (collect_profile envPriv "u").2, a = Adapter.summary :=
  private_profile_short_circuit envPriv "u" "76561" rfl (Or.inl rfl)

/-- A scraped raw game whose hours_forever field is the claim's "12,5". -/
def rawGameComma : RawGame :=
  { appid := some 730, name := some "G", hours_forever := some "12,5" }

/-- Counterexample to claim C3: the scrape adapter strips the comma from
the scraped playtime string "12,5", so downstream normalization parses
125 hours and yields 7500 minutes, not the claimed 750. -/
theorem scraped_comma_counterexample :
    (mkScrapeGame rawGameComma).playtime = .str "125"
    ∧ normPlaytime (mkScrapeGame rawGameComma).playtime = 7500
    ∧ (7500 : ℚ) ≠ 750 := by
  have h2 : (mkScrapeGame rawGameComma).playtime = .str "125" := by decide
  have h : pyFloatDec "125" = some (125, 0) := by decide
  refine ⟨h2, ?_, by norm_num⟩
  rw [h2]
  simp [normPlaytime, pyFloat, h]
  norm_num

/-- Claim C3 as amended: normalization multiplies a parsed scraped
string by 60 and never rescales a numeric (API, already-minutes) value;
but commas in the scraped string are stripped as thousands separators
first, so "12,5" becomes "125" and normalizes to 7500 minutes, while a
dot-decimal "12.5" normalizes to 750. -/
theorem playtime_normalization_amended :
    (∀ k : Int, normPlaytime (.num k) = (k : ℚ))
    ∧ normPlaytime (.str (removeCommas "12.5")) = 750
    ∧ normPlaytime (.str (removeCommas "12,5")) = 7500 := by
  refine ⟨fun k => rfl, ?_, ?_⟩
  · have he : removeCommas "12.5" = "12.5" := by decide
    have h : pyFloatDec "12.5" = some (125, 1) := by decide
    rw [he]
    simp [normPlaytime, pyFloat, h]
    norm_num
  · have he : removeCommas "12,5" = "125" := by decide
    have h : pyFloatDec "125" = some (125, 0) := by decide
    rw [he]
    simp [normPlaytime, pyFloat, h]
    norm_num

theorem retryFrom_congr (fuel : Nat) : ∀ (start : Nat) (resp resp2 : Nat → HttpOutcome),
    (∀ k, start ≤ k → k < start + fuel → resp k = resp2 k) →
    retryFrom resp fuel start = retryFrom resp2 fuel start := by
  induction fuel with
  | zero => intro start resp resp2 _; rfl
  | succ n ih =>
    intro start resp resp2 h
    have h0 : resp start = resp2 start := h start (le_refl _) (by omega)
    have hrec : retryFrom resp n (start + 1) = retryFrom resp2 n (start + 1) :=
      ih (start + 1) resp resp2 (fun k hk1 hk2 => h k (by omega) (by omega))
    simp only [retryFrom, h0, hrec]

theorem retryFrom_no200 (fuel : Nat) : ∀ (start : Nat) (resp : Nat → HttpOutcome),
    (∀ k, start ≤ k → k < start + fuel → ∀ b, resp k ≠ .status 200 b) →
    ∃ e, (retryFrom resp fuel start).1 = .error e := by
  induction fuel with
  | zero => intro start resp _; exact ⟨maxRetriesMsg, rfl⟩
  | succ n ih =>
    intro start resp h
    have hrec : ∃ e, (retryFrom resp n (start + 1)).1 = .error e :=
      ih (start + 1) resp (fun k hk1 hk2 => h k (by omega) (by omega))
    obtain ⟨e, he⟩ := hrec
    cases hs : resp start with
    | status code body =>
      by_cases h429 : code = 429
      · exact ⟨e, by simp [retryFrom, hs, h429, he]⟩
      · have h200 : ¬ code = 200 := by
          intro hc
          exact h start (le_refl _) (by omega) body (by rw [hs, hc])
        exact ⟨e, by simp [retryFrom, hs, h429, h200, he]⟩
    | timeout =>
      cases n with
      | zero => exact ⟨"Timeout", by simp [retryFrom, hs]⟩
      | succ m =>
        refine ⟨e, ?_⟩
        have hb : (retryFrom resp (m + 1 + 1) start).1
            = (retryFrom resp (m + 1) (start + 1)).1 := by
          simp [retryFrom, hs]
        rw [hb]; exact he
    | exc msg =>
      cases n with
      | zero => exact ⟨msg, by simp [retryFrom, hs]⟩
      | succ m =>
        refine ⟨e, ?_⟩
        have hb : (retryFrom resp (m + 1 + 1) start).1
            = (retryFrom resp (m + 1) (start + 1)).1 := by
          simp [retryFrom, hs]
        rw [hb]; exact he

/-- Claim C4: the HTTP wrapper makes at most 3 attempts (outcomes past
the third attempt never affect the result); a 429 at attempt k sleeps
30 × (k+1) — in the 429-then-200 scenario it sleeps 30 and returns the
second attempt's body without error; any other non-200 sleeps 5; three
429s sleep 30, 60, 90 and fail terminally; three other non-200s sleep
5, 5, 5 and fail terminally; and no 200 within the budget always ends
in a terminal error. -/
theorem http_retry_policy :
    (∀ resp resp2 : Nat → HttpOutcome,
        (∀ k, k < 3 → resp k = resp2 k) →
        api_request_with_retry resp = api_request_with_retry resp2)
    ∧ (∀ b b2 : String,
        api_request_with_retry (fun k => if k = 0 then .status 429 b else .status 200 b2)
          = (.ok b2, [30]))
    ∧ (∀ b b2 : String,
        api_request_with_retry (fun k => if k = 0 then .status 500 b else .status 200 b2)
          = (.ok b2, [5]))
    ∧ (∀ b : String, api_request_with_retry (fun _ => .status 429 b)
          = (.error maxRetriesMsg, [30, 60, 90]))
    ∧ (∀ b : String, api_request_with_retry (fun _ => .status 503 b)
          = (.error maxRetriesMsg, [5, 5, 5]))
    ∧ (∀ resp : Nat → HttpOutcome,
        (∀ k, k < 3 → ∀ b, resp k ≠ .status 200 b) →
        ∃ e, (api_request_with_retry resp).1 = .error e) := by
  refine ⟨?_, ?_, ?_, ?_, ?_, ?_⟩
  · intro resp resp2 h
    exact retryFrom_congr 3 0 resp resp2 (fun k _ hk2 => h k (by omega))
  · intro b b2; rfl
  · intro b b2; rfl
  · intro b; rfl
  · intro b; rfl
  · intro resp h
    exact retryFrom_no200 3 0 resp (fun k _ hk2 b => h k (by omega) b)

/-- Outcomes that are all 429 within the attempt window but differ
afterwards. -/
def respLate : Nat → HttpOutcome :=
  fun k => if k < 3 then .status 429 "x" else .status 200 "y"

def respAll429 : Nat → HttpOutcome := fun _ => .status 429 "x"

/-- Witness for C4: the late 200 beyond the attempt budget is never
seen, and an all-429 run ends in a terminal error. -/
theorem http_retry_policy_witness :
    api_request_with_retry respLate = api_request_with_retry respAll429
    ∧ ∃ e, (api_request_with_retry respAll429).1 = .error e := by
  constructor
  · exact http_retry_policy.1 respLate respAll429
      (by intro k hk; simp [respLate, respAll429, hk])
  · exact http_retry_policy.2.2.2.2.2 respAll429
      (by intro k _ b; simp [respAll429])

/-- Claim C5: after the privacy gate passes, the scrape games adapter is
always invoked, and the API games adapter is invoked exactly when the
scrape yielded an empty list; the scrape adapter itself degrades to an
empty list — propagating nothing — when the fetch raises, when the
rgGames block is absent, and when JSON parsing fails. -/
theorem games_fallback_policy
    (env : Env) (url sid : String) (s : Summary)
    (hres : env.extract url = .ok sid)
    (hsum : env.summary sid = .ok (some s))
    (hpub : s.profile_state = some 3) :
    (Adapter.scrapeGames ∈ (collect_profile env url).2
      ∧ (Adapter.apiGames ∈ (collect_profile env url).2
          ↔ env.scrapeGames url = []))
    ∧ (∀ (e : String) (parseJson : String → Option (List RawGame)),
        get_games_from_html (.error e) parseJson = [])
    ∧ (∀ (text : String) (parseJson : String → Option (List RawGame)),
        findRgGames text = none → get_games_from_html (.ok text) parseJson = [])
    ∧ (∀ (text js : String) (parseJson : String → Option (List RawGame)),
        findRgGames text = some js → parseJson js = none →
        get_games_from_html (.ok text) parseJson = []) := by
  refine ⟨?_, ?_, ?_, ?_⟩
  · have hemp : (env.scrapeGames url).isEmpty = true ↔ env.scrapeGames url = [] :=
      List.isEmpty_iff
    by_cases hsg : (env.scrapeGames url).isEmpty
    · have hsg2 : env.scrapeGames url = [] := hemp.mp hsg
      cases happ : env.apiGames sid with
      | error e =>
        constructor
        · simp [collect_profile, hres, hsum, hpub, hsg, happ]
        · simp [collect_profile, hres, hsum, hpub, hsg, happ, hsg2]
      | ok gs =>
        cases hlvl : env.level sid with
        | error e =>
          constructor
          · simp [collect_profile, hres, hsum, hpub, hsg, happ, hlvl]
          · simp [collect_profile, hres, hsum, hpub, hsg, happ, hlvl, hsg2]
        | ok lvl =>
          constructor
          · simp [collect_profile, hres, hsum, hpub, hsg, happ, hlvl]
          · simp [collect_profile, hres, hsum, hpub, hsg, happ, hlvl, hsg2]
    · have hsg2 : ¬ env.scrapeGames url = [] := fun hc => hsg (hemp.mpr hc)
      cases hlvl : env.level sid with
      | error e =>
        constructor
        · simp [collect_profile, hres, hsum, hpub, hsg, hlvl]
        · simp [collect_profile, hres, hsum, hpub, hsg, hlvl, hsg2]
      | ok lvl =>
        constructor
        · simp [collect_profile, hres, hsum, hpub, hsg, hlvl]
        · simp [collect_profile, hres, hsum, hpub, hsg, hlvl, hsg2]
  · intro e parseJson; rfl
  · intro text parseJson hnone
    simp [get_games_from_html, hnone]
  · intro text js parseJson hsome hpfail
    simp [get_games_from_html, hsome, hpfail]

/-- A concrete public-profile env with an empty scrape result. -/
def envPub : Env :=
  { extract := fun _ => .ok "76561"
    summary := fun _ => .ok (some { nickname := some "N", profile_state := some 3 })
    scrapeGames := fun _ => []
    apiGames := fun _ => .ok [{ appid := some 10, name := some "CS", playtime := .num 5 }]
    recent := fun _ => {}
    level := fun _ => .ok (some 7)
    friends := fun _ => []
    groups := fun _ => [] }

/-- Witness for C5 at envPub: the empty scrape leads to an API games
call. -/
theorem games_fallback_policy_witness :
    Adapter.apiGames ∈ (collect_profile envPub "u").2 :=
  ((games_fallback_policy envPub "u" "76561"
      { nickname := some "N", profile_state := some 3 }
      rfl rfl rfl).1.2).mpr rfl

/-- A success record owning one group and no friends or games. -/
def recWithGroup : Record :=
  { steamid := "1", nickname := some "N", profile_url := some "u",
    groups := [{ name := "G", url := some "gu" }] }

/-- Counterexample to claim C6: a batch holding one group entry (and
zero friend entries) yields a workbook whose only sheet is Profiles —
no Groups sheet is emitted, contradicting the claimed Groups sheet with
one row. -/
theorem export_sheets_counterexample :
    (recWithGroup.groups.length = 1
      ∧ sheetNames (create_excel [recWithGroup]) = ["Profiles"])
    ∧ ¬ "Groups" ∈ sheetNames (create_excel [recWithGroup]) := by
  refine ⟨⟨rfl, ?_⟩, ?_⟩ <;> decide

/-- Claim C6 as amended: the export emits a Profiles sheet always and a
Games sheet exactly when some success record owns at least one game;
Friends and Groups sheets are never emitted, whatever friend or group
entries the batch holds (so the zero-friends half of the claim holds
vacuously and the Groups half fails). -/
theorem export_sheets_amended (results : List Record) :
    "Friends" ∉ sheetNames (create_excel results)
    ∧ "Groups" ∉ sheetNames (create_excel results)
    ∧ ("Games" ∈ sheetNames (create_excel results)
        ↔ ∃ r ∈ results, r.error = none ∧ r.games ≠ []) := by
  have hnil : (create_excel results).games = []
      ↔ ∀ r ∈ results, r.error = none → r.games = [] := by
    constructor
    · intro h r hr herr
      by_contra hne
      have hmem : r ∈ successFilter results := by
        simp [successFilter, List.mem_filter, hr, herr]
      obtain ⟨g, hg⟩ : ∃ g, g ∈ r.games := by
        cases hg : r.games with
        | nil => exact absurd hg hne
        | cons a t => exact ⟨a, by simp [hg]⟩
      have : gameRow r g ∈ (create_excel results).games := by
        simp only [create_excel, List.mem_flatMap]
        exact ⟨r, hmem, by simp [List.mem_map]; exact ⟨g, hg, rfl⟩⟩
      rw [h] at this
      simp at this
    · intro h
      simp only [create_excel, List.flatMap_eq_nil_iff]
      intro r hr
      have hr2 : r ∈ results ∧ r.error = none := by
        simpa [successFilter, List.mem_filter] using hr
      simp [h r hr2.1 hr2.2]
  refine ⟨?_, ?_, ?_⟩
  · by_cases h : (create_excel results).games.isEmpty <;>
      simp [sheetNames, h]
  · by_cases h : (create_excel results).games.isEmpty <;>
      simp [sheetNames, h]
  · by_cases h : (create_excel results).games.isEmpty
    · have h2 : (create_excel results).games = [] := List.isEmpty_iff.mp h
      simp only [sheetNames, h, if_pos]
      constructor
      · intro hmem; simp at hmem
      · intro ⟨r, hr, herr, hne⟩
        exact absurd ((hnil.mp h2) r hr herr) hne
    · have h2 : ¬ (create_excel results).games = [] :=
        fun hc => h (List.isEmpty_iff.mpr hc)
      simp only [sheetNames, h, if_neg]
      constructor
      · intro _
        by_contra hall
        push_neg at hall
        exact h2 (hnil.mpr fun r hr herr => by
          by_contra hne
          exact hne (by_contra fun hnn => absurd (hall r hr herr) hnn))
      · intro _; simp

/-- A page fetch that returns markup holding no steamid pattern. -/
def fetchNoSid : String → Except String String :=
  fun _ => .ok "<html><body>no ids here</body></html>"

/-- The env whose resolution goes through extract_steamid over
fetchNoSid and whose other adapters are never reached. -/
def envNoSid : Env :=
  { extract := extract_steamid fetchNoSid
    summary := fun _ => .ok none
    scrapeGames := fun _ => []
    apiGames := fun _ => .ok []
    recent := fun _ => {}
    level := fun _ => .ok none
    friends := fun _ => []
    groups := fun _ => [] }

/-- Counterexample to claim C7: a vanity URL whose page holds no steamid
produces an ErrorRecord whose error kind is the wrapped exception
message, not the literal RESOLUTION_FAILED of the claim. -/
theorem resolution_error_kind_counterexample :
    run_batch (fun u => (collect_profile envNoSid u).1)
        ["https://steamcommunity.com/id/someone"]
      = [{ steamid := "https://steamcommunity.com/id/someone",
           error := some "Ошибка: Не удалось извлечь SteamID" }]
    ∧ some "Ошибка: Не удалось извлечь SteamID" ≠ some "RESOLUTION_FAILED" := by
  refine ⟨?_, ?_⟩ <;> decide

/-- Claim C7 as amended: a profile URL without a /profiles/ segment
whose fetched page shows no steamid pattern makes the resolver raise
ValueError with message "Ошибка: Не удалось извлечь SteamID"; the batch
then records an ErrorRecord carrying the raw URL as identifier and that
exception message — not a dedicated RESOLUTION_FAILED tag — as its
error kind. -/
theorem resolution_failure_recorded
    (fetch : String → Except String String) (env : Env) (url text : String)
    (hshape : containsSub url "/profiles/" = false)
    (hfetch : fetch url = .ok text)
    (hnosid : findSteamidPat text = none)
    (hext : env.extract = extract_steamid fetch) :
    (collect_profile env url).1 = .error "Ошибка: Не удалось извлечь SteamID"
    ∧ run_batch (fun u => (collect_profile env u).1) [url]
        = [{ steamid := url, error := some "Ошибка: Не удалось извлечь SteamID" }] := by
  have hex : env.extract url = .error "Ошибка: Не удалось извлечь SteamID" := by
    rw [hext]
    simp [extract_steamid, hshape, hfetch, hnosid]
  have h1 : (collect_profile env url).1
      = .error "Ошибка: Не удалось извлечь SteamID" := by
    simp [collect_profile, hex]
  exact ⟨h1, by simp [run_batch, stepOne, h1]⟩

/-- Witness for C7's amended theorem at the concrete envNoSid. -/
theorem resolution_failure_recorded_witness :
    (collect_profile envNoSid "https://steamcommunity.com/id/someone").1
      = .error "Ошибка: Не удалось извлечь SteamID"
    ∧ run_batch (fun u => (collect_profile envNoSid u).1)
        ["https://steamcommunity.com/id/someone"]
      = [{ steamid := "https://steamcommunity.com/id/someone",
           error := some "Ошибка: Не удалось извлечь SteamID" }] :=
  resolution_failure_recorded fetchNoSid envNoSid
    "https://steamcommunity.com/id/someone"
    "<html><body>no ids here</body></html>"
    (by decide) rfl (by decide) rfl

theorem mem_insDesc {α : Type} (key : α → ℚ) (x z : α) (l : List α) :
    z ∈ insDesc key x l ↔ z = x ∨ z ∈ l := by
  induction l with
  | nil => simp [insDesc]
  | cons y ys ih =>
    by_cases h : key y < key x
    · simp only [insDesc, if_pos h, List.mem_cons]
      try tauto
    · simp only [insDesc, if_neg h, List.mem_cons, ih]
      try tauto

theorem pairwise_insDesc {α : Type} (key : α → ℚ) (x : α) (l : List α)
    (h : l.Pairwise (fun a b => key b ≤ key a)) :
    (insDesc key x l).Pairwise (fun a b => key b ≤ key a) := by
  induction l with
  | nil => simp [insDesc]
  | cons y ys ih =>
    rcases List.pairwise_cons.mp h with ⟨hy, hys⟩
    by_cases hlt : key y < key x
    · rw [insDesc, if_pos hlt]
      refine List.pairwise_cons.mpr ⟨?_, h⟩
      intro z hz
      rcases List.mem_cons.mp hz with rfl | hz2
      · exact le_of_lt hlt
      · exact le_trans (hy z hz2) (le_of_lt hlt)
    · rw [insDesc, if_neg hlt]
      refine List.pairwise_cons.mpr ⟨?_, ih hys⟩
      intro z hz
      rcases (mem_insDesc key x z ys).mp hz with rfl | hz2
      · exact le_of_not_lt hlt
      · exact hy z hz2

theorem filter_insDesc {α : Type} (key : α → ℚ) (x : α) (q : ℚ) (l : List α)
    (h : l.Pairwise (fun a b => key b ≤ key a)) :
    (insDesc key x l).filter (fun a => key a = q)
      = if key x = q then l.filter (fun a => key a = q) ++ [x]
        else l.filter (fun a => key a = q) := by
  induction l with
  | nil =>
    by_cases hx : key x = q <;> simp [insDesc, hx]
  | cons y ys ih =>
    rcases List.pairwise_cons.mp h with ⟨hy, hys⟩
    by_cases hlt : key y < key x
    · rw [insDesc, if_pos hlt]
      by_cases hx : key x = q
      · have hempty : (y :: ys).filter (fun a => key a = q) = [] := by
          rw [List.filter_eq_nil_iff]
          intro a ha
          rcases List.mem_cons.mp ha with rfl | ha2
          · simp only [decide_eq_true_eq]
            intro hq
            rw [hq, ← hx] at hlt
            exact lt_irrefl _ hlt
          · simp only [decide_eq_true_eq]
            intro hq
            have hle : key a ≤ key y := hy a ha2
            rw [hq, ← hx] at hle
            exact absurd (lt_of_lt_of_le hlt hle) (lt_irrefl _)
        rw [if_pos hx, hempty]
        simp [List.filter_cons, hx, hempty]
      · rw [if_neg hx]
        simp [List.filter_cons, hx]
    · rw [insDesc, if_neg hlt, List.filter_cons, ih hys]
      by_cases hyq : key y = q <;> by_cases hx : key x = q <;>
        simp [List.filter_cons, hyq, hx]

theorem sorted_filter_pySortDesc_aux {α : Type} (key : α → ℚ) (l : List α) :
    ∀ acc : List α, acc.Pairwise (fun a b => key b ≤ key a) →
      (l.foldl (fun acc x => insDesc key x acc) acc).Pairwise
        (fun a b => key b ≤ key a)
      ∧ ∀ q : ℚ, (l.foldl (fun acc x => insDesc key x acc) acc).filter
            (fun a => key a = q)
          = acc.filter (fun a => key a = q) ++ l.filter (fun a => key a = q) := by
  induction l with
  | nil => intro acc h; exact ⟨h, fun q => by simp⟩
  | cons x xs ih =>
    intro acc h
    have hx := pairwise_insDesc key x acc h
    obtain ⟨hs, hf⟩ := ih (insDesc key x acc) hx
    refine ⟨by simpa using hs, ?_⟩
    intro q
    have := hf q
    simp only [List.foldl_cons]
    rw [this, filter_insDesc key x q acc h]
    by_cases hxq : key x = q
    · rw [if_pos hxq, List.filter_cons, if_pos (by simpa using hxq)]
      simp
    · rw [if_neg hxq, List.filter_cons, if_neg (by simpa using hxq)]

theorem sorted_pySortDesc {α : Type} (key : α → ℚ) (l : List α) :
    (pySortDesc key l).Pairwise (fun a b => key b ≤ key a) :=
  (sorted_filter_pySortDesc_aux key l [] (by simp)).1

theorem filter_pySortDesc {α : Type} (key : α → ℚ) (l : List α) (q : ℚ) :
    (pySortDesc key l).filter (fun a => key a = q)
      = l.filter (fun a => key a = q) := by
  have := (sorted_filter_pySortDesc_aux key l [] (by simp)).2 q
  simpa [pySortDesc] using this

/-- Success profile A with 1 CS2 minute. -/
def recA1 : Record :=
  { steamid := "A", nickname := some "A",
    games := [{ appid := some 730, name := some "CS2", playtime := .num 1 }] }

/-- Success profile B with 2 CS2 minutes. -/
def recB2 : Record :=
  { steamid := "B", nickname := some "B",
    games := [{ appid := some 730, name := some "CS2", playtime := .num 2 }] }

/-- Success profile A with 0 CS2 minutes. -/
def recA0 : Record :=
  { steamid := "A", nickname := some "A",
    games := [{ appid := some 730, name := some "CS2", playtime := .num 0 }] }

/-- Success profile B with 120 CS2 minutes. -/
def recB120 : Record :=
  { steamid := "B", nickname := some "B",
    games := [{ appid := some 730, name := some "CS2", playtime := .num 120 }] }

/-- Success profile B with 0 CS2 minutes. -/
def recB0 : Record :=
  { steamid := "B", nickname := some "B",
    games := [{ appid := some 730, name := some "CS2", playtime := .num 0 }] }

theorem cs2Entry_recA1 : cs2Entry recA1 = (some "A", 0) := by
  norm_num [cs2Entry, cs2Time, recA1, gameCs2Playtime, CS2_APPIDS,
    normPlaytime, pyRound1]

theorem cs2Entry_recB2 : cs2Entry recB2 = (some "B", 0) := by
  norm_num [cs2Entry, cs2Time, recB2, gameCs2Playtime, CS2_APPIDS,
    normPlaytime, pyRound1]

theorem cs2Entry_recA0 : cs2Entry recA0 = (some "A", 0) := by
  norm_num [cs2Entry, cs2Time, recA0, gameCs2Playtime, CS2_APPIDS,
    normPlaytime, pyRound1]

theorem cs2Entry_recB120 : cs2Entry recB120 = (some "B", 2) := by
  norm_num [cs2Entry, cs2Time, recB120, gameCs2Playtime, CS2_APPIDS,
    normPlaytime, pyRound1]

theorem cs2Entry_recB0 : cs2Entry recB0 = (some "B", 0) := by
  norm_num [cs2Entry, cs2Time, recB0, gameCs2Playtime, CS2_APPIDS,
    normPlaytime, pyRound1]

/-- Counterexample to claim C8: with A at 1 minute and B at 2 minutes of
CS2 playtime, both round to 0.0 hours, so the leaderboard keeps A before
B although B's playtime over the app-id set is strictly larger —
descending playtime order would require B first. -/
theorem cs2_order_counterexample :
    cs2Leaderboard [recA1, recB2] = [(some "A", 0), (some "B", 0)]
    ∧ cs2Time recB2 > cs2Time recA1
    ∧ ((some "A", (0 : ℚ)) : Option String × ℚ) ≠ (some "B", 0) := by
  refine ⟨?_, ?_, by simp⟩
  · have hF : successFilter [recA1, recB2] = [recA1, recB2] := by decide
    rw [cs2Leaderboard, cs2Data, hF]
    rw [List.map_cons, List.map_cons, List.map_nil,
      cs2Entry_recA1, cs2Entry_recB2]
    simp only [pySortDesc, List.foldl_cons, List.foldl_nil, insDesc]
    norm_num
  · norm_num [cs2Time, recA1, recB2, gameCs2Playtime, CS2_APPIDS, normPlaytime]

/-- Claim C8 as amended: the CS2 leaderboard sorts the success profiles
by hours = round(minutes / 60, 1) — playtime rounded to tenths of an
hour — in descending order, stably, so equal rounded keys (not only
equal playtimes) keep input order; over [A: 0 min, B: 120 min] it
returns [B, A], and with equal totals the input order is preserved. -/
theorem cs2_leaderboard_amended :
    (∀ results : List Record,
        (cs2Leaderboard results).Pairwise (fun a b => b.2 ≤ a.2)
        ∧ ∀ q : ℚ, (cs2Leaderboard results).filter (fun x => x.2 = q)
            = (cs2Data results).filter (fun x => x.2 = q))
    ∧ cs2Leaderboard [recA0, recB120] = [(some "B", 2), (some "A", 0)]
    ∧ cs2Leaderboard [recA0, recB0] = [(some "A", 0), (some "B", 0)] := by
  refine ⟨?_, ?_, ?_⟩
  · intro results
    exact ⟨sorted_pySortDesc Prod.snd (cs2Data results),
      fun q => filter_pySortDesc Prod.snd (cs2Data results) q⟩
  · have hF : successFilter [recA0, recB120] = [recA0, recB120] := by decide
    rw [cs2Leaderboard, cs2Data, hF]
    rw [List.map_cons, List.map_cons, List.map_nil,
      cs2Entry_recA0, cs2Entry_recB120]
    simp only [pySortDesc, List.foldl_cons, List.foldl_nil, insDesc]
    norm_num
  · have hF : successFilter [recA0, recB0] = [recA0, recB0] := by decide
    rw [cs2Leaderboard, cs2Data, hF]
    rw [List.map_cons, List.map_cons, List.map_nil,
      cs2Entry_recA0, cs2Entry_recB0]
    simp only [pySortDesc, List.foldl_cons, List.foldl_nil, insDesc]
    norm_num

/-- Entry count restricted to one games list. -/
def gamesCount (gs : List Game) (k : Option String) : Nat :=
  gs.countP (fun g => gameKey g = k)

/-- Normalized-playtime sum restricted to one games list. -/
def gamesSum (gs : List Game) (k : Option String) : ℚ :=
  ((gs.filter (fun g => gameKey g = k)).map (fun g => normPlaytime g.playtime)).sum

theorem lookup_addGame (acc : List (Option String × ℚ × Nat))
    (n : Option String) (pt : ℚ) (k : Option String) :
    lookupGame (addGame acc n pt) k
      = if n = k then
          match lookupGame acc k with
          | some (t, c) => some (t + pt, c + 1)
          | none => some (pt, 1)
        else lookupGame acc k := by
  induction acc with
  | nil =>
    by_cases h : n = k <;> simp [addGame, lookupGame, h]
  | cons e rest ih =>
    obtain ⟨m, t, c⟩ := e
    by_cases hmn : m = n
    · subst hmn
      by_cases hnk : m = k
      · subst hnk; simp [addGame, lookupGame]
      · simp [addGame, lookupGame, hnk]
    · by_cases hmk : m = k
      · subst hmk
        have hnk : ¬ n = m := fun hc => hmn hc.symm
        simp [addGame, lookupGame, hmn, hnk]
      · simp [addGame, lookupGame, hmn, hmk, ih]

theorem lookup_foldGames (gs : List Game) :
    ∀ (acc : List (Option String × ℚ × Nat)) (k : Option String),
    lookupGame (gs.foldl gameStep acc) k
      = match lookupGame acc k with
        | some (t, c) => some (t + gamesSum gs k, c + gamesCount gs k)
        | none =>
          if gamesCount gs k = 0 then none
          else some (gamesSum gs k, gamesCount gs k) := by
  induction gs with
  | nil =>
    intro acc k
    cases h : lookupGame acc k with
    | some tc => obtain ⟨t, c⟩ := tc; simp [gamesSum, gamesCount, h]
    | none => simp [gamesSum, gamesCount, h]
  | cons g rest ih =>
    intro acc k
    simp only [List.foldl_cons]
    rw [ih (gameStep acc g) k]
    have hstep := lookup_addGame acc (gameKey g) (normPlaytime g.playtime) k
    by_cases hk : gameKey g = k
    · rw [show gameStep acc g = addGame acc (gameKey g) (normPlaytime g.playtime) from rfl,
        hstep, if_pos hk]
      have hS : gamesSum (g :: rest) k
          = normPlaytime g.playtime + gamesSum rest k := by
        simp [gamesSum, List.filter_cons, hk]
      have hC : gamesCount (g :: rest) k = gamesCount rest k + 1 := by
        simp [gamesCount, List.countP_cons, hk]
      cases h : lookupGame acc k with
      | some tc =>
        obtain ⟨t, c⟩ := tc
        rw [hS, hC]
        simp only [Option.some.injEq, Prod.mk.injEq]
        constructor
        · ring
        · omega
      | none =>
        have hne : gamesCount rest k + 1 ≠ 0 := by omega
        rw [hC, if_neg hne, hS]
        simp only [Option.some.injEq, Prod.mk.injEq, true_and]
        omega
    · rw [show gameStep acc g = addGame acc (gameKey g) (normPlaytime g.playtime) from rfl,
        hstep, if_neg hk]
      have hS : gamesSum (g :: rest) k = gamesSum rest k := by
        simp [gamesSum, List.filter_cons, hk]
      have hC : gamesCount (g :: rest) k = gamesCount rest k := by
        simp [gamesCount, List.countP_cons, hk]
      rw [hS, hC]

theorem foldl_flatMap_games (rs : List Record) :
    ∀ acc : List (Option String × ℚ × Nat),
    rs.foldl (fun acc r => r.games.foldl gameStep acc) acc
      = (rs.flatMap (fun r => r.games)).foldl gameStep acc := by
  induction rs with
  | nil => intro acc; rfl
  | cons r rest ih =>
    intro acc
    simp only [List.foldl_cons, List.flatMap_cons, List.foldl_append]
    exact ih _

theorem allGames_lookup (results : List Record) (k : Option String) :
    lookupGame (allGames results) k
      = if entryCountName results k = 0 then none
        else some (entrySumName results k, entryCountName results k) := by
  rw [allGames, foldl_flatMap_games, lookup_foldGames]
  simp [lookupGame, entryCountName, entrySumName, allEntries, gamesCount, gamesSum]

/-- One success profile holding two distinct game entries that share
the name "X" (e.g. two app ids of one family). -/
def recDup : Record :=
  { steamid := "P", nickname := some "P",
    games := [{ appid := some 730, name := some "X", playtime := .num 60 },
              { appid := some 710, name := some "X", playtime := .num 60 }] }

/-- First of the two spec-example profiles, each owning one CS2 entry
with 60 minutes. -/
def recP1 : Record :=
  { steamid := "1", nickname := some "P1",
    games := [{ appid := some 730, name := some "CS2", playtime := .num 60 }] }

def recP2 : Record :=
  { steamid := "2", nickname := some "P2",
    games := [{ appid := some 730, name := some "CS2", playtime := .num 60 }] }

/-- Counterexample to claim C9: one profile with two same-named entries
gets players = 2 for that name although only 1 distinct profile owns
it — the players counter counts entries, not distinct profiles. -/
theorem per_game_players_counterexample :
    lookupGame (allGames [recDup]) (some "X") = some (120, 2)
    ∧ specDistinctOwners [recDup] (some "X") = 1
    ∧ (2 : Nat) ≠ 1 := by
  refine ⟨?_, by decide, by decide⟩
  have hF : successFilter [recDup] = [recDup] := by decide
  rw [allGames, hF]
  simp only [List.foldl_cons, List.foldl_nil, recDup]
  norm_num [gameStep, gameKey, addGame, lookupGame, normPlaytime]

/-- Claim C9 as amended: for each name, all_games stores the sum of
normalized playtimes over all entries with that name across success
profiles, and a players field equal to the number of such entries —
which equals the number of distinct owning profiles only when no
profile lists a name twice; on the spec's two-profile example the
lookup gives 120 minutes and players = 2 = distinct owners. -/
theorem per_game_aggregate_amended :
    (∀ (results : List Record) (k : Option String),
        lookupGame (allGames results) k
          = if entryCountName results k = 0 then none
            else some (entrySumName results k, entryCountName results k))
    ∧ lookupGame (allGames [recP1, recP2]) (some "CS2") = some (120, 2)
    ∧ specDistinctOwners [recP1, recP2] (some "CS2") = 2 := by
  refine ⟨allGames_lookup, ?_, by decide⟩
  have hF : successFilter [recP1, recP2] = [recP1, recP2] := by decide
  rw [allGames, hF]
  simp only [List.foldl_cons, List.foldl_nil, recP1, recP2]
  norm_num [gameStep, gameKey, addGame, lookupGame, normPlaytime]

/-- Claim C10: a collection exception caught at the per-profile boundary
is appended as a record whose identifier field holds the raw input URL
and whose error kind is the exception message; an ok collection outcome
either is the assembled success record with no error field at all
(error = none) or the PROFILE_PRIVATE gate record; and the analytics
pages classify a record as a success exactly when its error field is
absent. -/
theorem error_field_discipline :
    (∀ (collectO : String → Except String Record) (urls : List String)
        (i : Nat) (msg : String) (h1 : i < urls.length)
        (h2 : i < (run_batch collectO urls).length),
        collectO (urls.get ⟨i, h1⟩) = .error msg →
        (run_batch collectO urls).get ⟨i, h2⟩
          = { steamid := urls.get ⟨i, h1⟩, error := some msg })
    ∧ (∀ (env : Env) (url : String) (rec : Record),
        (collect_profile env url).1 = .ok rec →
        rec.error = none ∨ rec.error = some "PROFILE_PRIVATE")
    ∧ (∀ (results : List Record) (r : Record),
        r ∈ successFilter results ↔ r ∈ results ∧ r.error = none) := by
  refine ⟨?_, ?_, ?_⟩
  · intro collectO urls i msg h1 h2 herr
    rw [run_batch_get collectO urls i h1 h2, stepOne, herr]
  · intro env url rec hok
    rcases hres : env.extract url with e | sid
    · rw [collect_profile] at hok
      simp [hres] at hok
    · rcases hsum : env.summary sid with e | osum
      · rw [collect_profile] at hok
        simp [hres, hsum] at hok
      · cases osum with
        | none =>
          rw [collect_profile] at hok
          simp [hres, hsum] at hok
          simp [← hok]
        | some s =>
          by_cases hpub : s.profile_state = some 3
          · rcases hsg : (env.scrapeGames url).isEmpty with hv | hv
            all_goals {
              rw [collect_profile] at hok
              simp only [hres, hsum, hpub, if_pos, hsg] at hok
              first
              | (rcases happ : env.apiGames sid with e | gs
                 · simp [happ] at hok
                 · rcases hlvl : env.level sid with e | lvl
                   · simp [happ, hlvl] at hok
                   · simp [happ, hlvl] at hok
                     left
                     simp [← hok])
              | (rcases hlvl : env.level sid with e | lvl
                 · simp [hlvl] at hok
                 · simp [hlvl] at hok
                   left
                   simp [← hok])
            }
          · rw [collect_profile] at hok
            simp only [hres, hsum] at hok
            rw [if_neg hpub] at hok
            simp at hok
            simp [← hok]
  · intro results r
    simp [successFilter, List.mem_filter]

/-- Witness for C10 at a concrete batch and env: the caught exception
record for input "u" carries the raw URL and message; collect at
envPriv yields an ok record whose error is PROFILE_PRIVATE; and the
success filter keeps exactly the error-free record. -/
theorem error_field_discipline_witness :
    (run_batch (fun _ => .error "boom") ["u"]).get ⟨0, by decide⟩
      = { steamid := "u", error := some "boom" }
    ∧ (({ steamid := "76561", error := some "PROFILE_PRIVATE" } : Record).error = none
        ∨ ({ steamid := "76561", error := some "PROFILE_PRIVATE" } : Record).error
            = some "PROFILE_PRIVATE")
    ∧ (({ steamid := "s" } : Record) ∈ successFilter [{ steamid := "s" }]
        ↔ ({ steamid := "s" } : Record) ∈ [({ steamid := "s" } : Record)]
          ∧ ({ steamid := "s" } : Record).error = none) := by
  refine ⟨?_, ?_, ?_⟩
  · exact error_field_discipline.1 (fun _ => .error "boom") ["u"] 0 "boom"
      (by decide) (by decide) rfl
  · exact error_field_discipline.2.1 envPriv "u"
      { steamid := "76561", error := some "PROFILE_PRIVATE" } (by decide)
  · exact error_field_discipline.2.2 [{ steamid := "s" }] { steamid := "s" }

end SteamParser
